import Mathlib

/-!
Verification of the browser client in `src/frontend/script.js`.

The script wires three behaviours:
  * `handleUpload` : reads the selected file, generates a time-based session
    identifier, posts multipart form data, updates status text;
  * `handleQuery`  : validates the question and session, posts JSON, renders
    the structured response;
  * `displayResults` : pure rendering of a query response into an HTML string.

The embedding below is shallow: DOM state is a record `PageState`, the
`fetch` round trip is an explicit `FetchResult` argument, and the handlers
are pure functions from inputs and state to a new state plus the request
they issued (if any) and the alert they raised (if any).
-/

/-- Matches JavaScript truthiness on a string value starting the given
character list, i.e. whether the first list occurs at the head of the
second (used to build substring containment below). -/
def leadMatch : List Char → List Char → Bool
  | [], _ => true
  | _ :: _, [] => false
  | p :: ps, c :: cs => (p == c) && leadMatch ps cs

/-- Occurrence of `pat` anywhere in the list: model of JavaScript
`String.prototype.includes`. -/
def subMatch (pat : List Char) : List Char → Bool
  | [] => leadMatch pat []
  | c :: cs => leadMatch pat (c :: cs) || subMatch pat cs

/-- `containsSub s pat` models the JavaScript call `s.includes(pat)`. -/
def containsSub (s pat : String) : Bool :=
  subMatch pat.data s.data

/-- Model of JavaScript `String.prototype.toLowerCase` (the script only
compares against ASCII keywords, where `Char.toLower` agrees with it). -/
def lowerStr (s : String) : String :=
  String.mk (s.data.map Char.toLower)

/-- JavaScript `v || dflt` on an optional string field: absent, null and
empty strings are falsy and give the default. Models
`errorData.detail || 'Upload failed'` and `clause.clause_number || 'N/A'`. -/
def jsOrStr (v : Option String) (dflt : String) : String :=
  match v with
  | none => dflt
  | some s => if s = "" then dflt else s

/-- JavaScript truthiness of an optional string variable (`if (sessionId)`,
`if (data.conditions)`): present and non-empty. -/
def jsTruthyOpt (v : Option String) : Bool :=
  match v with
  | none => false
  | some s => s ≠ ""

/-- The ECMAScript white-space and line-terminator code points stripped by
`String.prototype.trim`. -/
def isJsWhitespace (c : Char) : Bool :=
  let n := c.toNat
  n = 0x9 || n = 0xa || n = 0xb || n = 0xc || n = 0xd || n = 0x20 ||
  n = 0xa0 || n = 0x1680 || (0x2000 ≤ n && n ≤ 0x200a) ||
  n = 0x2028 || n = 0x2029 || n = 0x202f || n = 0x205f || n = 0x3000 ||
  n = 0xfeff

/-- Model of JavaScript `String.prototype.trim`: strip the white-space code
points from both ends. -/
def jsTrim (s : String) : String :=
  String.mk (((s.data.dropWhile isJsWhitespace).reverse.dropWhile
    isJsWhitespace).reverse)

/-- The three display categories the renderer assigns to a decision
(`decisionClass` in `displayResults`). -/
inductive DecisionClass where
  | Approved
  | Rejected
  | Information
deriving DecidableEq, Repr

/-- CSS class name the script interpolates for each category. -/
def decisionClassName : DecisionClass → String
  | .Approved => "Approved"
  | .Rejected => "Rejected"
  | .Information => "Information"

/-- Classification in `displayResults` (script.js lines 107-112):
start from `Information`; if the lower-cased decision text includes
`approved` or `covered` take `Approved`; otherwise if it includes
`rejected` or `not` take `Rejected`. -/
def classifyDecision (decision : String) : DecisionClass :=
  if containsSub (lowerStr decision) "approved" ||
      containsSub (lowerStr decision) "covered" then
    DecisionClass.Approved
  else if containsSub (lowerStr decision) "rejected" ||
      containsSub (lowerStr decision) "not" then
    DecisionClass.Rejected
  else
    DecisionClass.Information

/-- Claim C1 counterexample: the decision text "Not approved" is NOT
classified into the negative category. Its lower-casing "not approved"
contains "approved", so the first (approved/covered) check fires and the
renderer classifies it as `Approved`, never reaching the rejected/not
check. -/
theorem classify_not_approved_is_positive :
    classifyDecision "Not approved" = DecisionClass.Approved ∧
      DecisionClass.Approved ≠ DecisionClass.Rejected := by
  decide

/-- Claim C1 (amended): the decision text "Not approved" contains "not"
(case-insensitively) and yet is classified into the positive category
`Approved`, because the approved/covered check is evaluated before the
rejected/not check and "not approved" contains "approved" as a
substring. -/
theorem classify_not_approved_amended :
    containsSub (lowerStr "Not approved") "not" = true ∧
      containsSub (lowerStr "Not approved") "approved" = true ∧
      classifyDecision "Not approved" = DecisionClass.Approved := by
  decide

/-- Claim C2: the renderer classifies the decision text case-insensitively
with first-match precedence — containing "approved" or "covered" gives the
positive category; otherwise containing "rejected" or "not" gives the
negative category; otherwise the neutral/informational category. -/
theorem classifyDecision_cases (d : String) :
    ((containsSub (lowerStr d) "approved" = true ∨
        containsSub (lowerStr d) "covered" = true) →
      classifyDecision d = DecisionClass.Approved) ∧
    (containsSub (lowerStr d) "approved" = false →
      containsSub (lowerStr d) "covered" = false →
      (containsSub (lowerStr d) "rejected" = true ∨
        containsSub (lowerStr d) "not" = true) →
      classifyDecision d = DecisionClass.Rejected) ∧
    (containsSub (lowerStr d) "approved" = false →
      containsSub (lowerStr d) "covered" = false →
      containsSub (lowerStr d) "rejected" = false →
      containsSub (lowerStr d) "not" = false →
      classifyDecision d = DecisionClass.Information) := by
  refine ⟨?_, ?_, ?_⟩
  · intro h
    rcases h with h | h <;> simp [classifyDecision, h]
  · intro h1 h2 h3
    rcases h3 with h | h <;> simp [classifyDecision, h1, h2, h]
  · intro h1 h2 h3 h4
    simp [classifyDecision, h1, h2, h3, h4]

/-- Witness for C2: the three branches of `classifyDecision_cases` at the
concrete decision texts "Approved", "Rejected" and "Pending review". -/
theorem classifyDecision_cases_witness :
    classifyDecision "Approved" = DecisionClass.Approved ∧
      classifyDecision "Rejected" = DecisionClass.Rejected ∧
      classifyDecision "Pending review" = DecisionClass.Information :=
  ⟨(classifyDecision_cases "Approved").1 (Or.inl (by decide)),
   (classifyDecision_cases "Rejected").2.1 (by decide) (by decide)
     (Or.inl (by decide)),
   (classifyDecision_cases "Pending review").2.2 (by decide) (by decide)
     (by decide) (by decide)⟩

/-- DOM state touched by the script: status line, card/loader visibility,
results HTML, input focus, and the single `sessionId` variable. -/
structure PageState where
  uploadStatusText : String
  uploadStatusColor : String
  queryCardVisible : Bool
  resultsCardVisible : Bool
  loaderVisible : Bool
  resultsContentHTML : String
  questionFocused : Bool
  sessionId : Option String
deriving DecidableEq, Repr

/-- Outcome of a `fetch` round trip, as the script consumes it: a thrown
network error with a message, a non-ok HTTP response whose JSON body may
carry a `detail` field, or an ok response with a parsed body. -/
inductive FetchResult (α : Type) where
  | networkError (msg : String)
  | httpError (detail : Option String)
  | success (body : α)
deriving DecidableEq, Repr

/-- Multipart form data sent by `handleUpload`: the file and session id. -/
structure UploadRequest where
  file : String
  session_id : String
deriving DecidableEq, Repr

/-- JSON body sent by `handleQuery`. -/
structure QueryRequest where
  session_id : String
  question : String
deriving DecidableEq, Repr

/-- One referenced clause of a query response (optional clause number,
source document name, quoted text). -/
structure Clause where
  clause_number : Option String
  document_name : String
  text : String
deriving DecidableEq, Repr

/-- Structured query response consumed by `displayResults`. -/
structure QueryResponse where
  decision : String
  justification : String
  conditions : Option String
  referenced_clauses : Option (List Clause)
deriving DecidableEq, Repr

/-- Per-clause HTML fragment appended by the `forEach` loop in
`displayResults` (script.js lines 130-135). -/
def clauseHtml (clause : Clause) : String :=
  "\n                    <div class=\"referenced-clause\">\n                        <strong>Clause "
    ++ jsOrStr clause.clause_number "N/A"
    ++ " (from " ++ clause.document_name
    ++ ")</strong>\n                        <p>\"" ++ clause.text
    ++ "\"</p>\n                    </div>\n                "

/-- `displayResults` (script.js lines 106-139): classify the decision,
build the HTML string by successive concatenation — decision and
justification always, conditions when truthy, the referenced-clauses
section when the array is present and non-empty — and store it in the
results area. -/
def displayResults (data : QueryResponse) (s : PageState) : PageState :=
  let decisionClass := decisionClassName (classifyDecision data.decision)
  let html :=
    "\n            <div class=\"decision " ++ decisionClass ++ "\">"
      ++ data.decision
      ++ "</div>\n            <h3>Justification</h3>\n            <p>"
      ++ data.justification ++ "</p>\n        "
  let html :=
    if jsTruthyOpt data.conditions then
      html ++ "\n                <h3>Conditions</h3>\n                <p>"
        ++ data.conditions.getD "" ++ "</p>\n            "
    else html
  let html :=
    match data.referenced_clauses with
    | some clauses =>
      if clauses.length > 0 then
        clauses.foldl (fun h c => h ++ clauseHtml c)
          (html ++ "<h3>Referenced Clauses</h3>")
      else html
    | none => html
  { s with resultsContentHTML := html }

/-- Result of invoking the upload handler: the new DOM state and the
request issued (`none` when the precondition aborted the flow). -/
structure UploadOutcome where
  state : PageState
  request : Option UploadRequest
deriving DecidableEq, Repr

/-- `handleUpload` (script.js lines 22-60). Inputs: the selected file (or
`none`), the value of `Date.now()`, the fetch outcome, and the current
state. With no file it sets a red status and aborts. Otherwise it stores a
fresh `session_` id, sets an orange progress status, issues the request,
and on settle: ok → server message in green, query card shown, question
input focused; non-ok → `Error:` plus the body `detail` (or
`Upload failed`) in red; thrown → `Error:` plus the message in red. -/
def handleUpload (file : Option String) (now : Nat)
    (resp : FetchResult String) (s : PageState) : UploadOutcome :=
  match file with
  | none =>
    { state := { s with uploadStatusText := "Please select a file first.",
                        uploadStatusColor := "red" },
      request := none }
  | some f =>
    let sid := "session_" ++ toString now
    let s := { s with sessionId := some sid,
                      uploadStatusText := "Uploading and processing...",
                      uploadStatusColor := "orange" }
    let s :=
      match resp with
      | .success msg =>
        { s with uploadStatusText := msg,
                 uploadStatusColor := "green",
                 queryCardVisible := true,
                 questionFocused := true }
      | .httpError detail =>
        { s with uploadStatusText :=
                   "Error: " ++ jsOrStr detail "Upload failed",
                 uploadStatusColor := "red" }
      | .networkError msg =>
        { s with uploadStatusText := "Error: " ++ msg,
                 uploadStatusColor := "red" }
    { state := s, request := some { file := f, session_id := sid } }

/-- Inline error paragraph written into the results area on a query
failure (script.js line 100). -/
def errorHtml (msg : String) : String :=
  "<p style=\"color:red;\">Error: " ++ msg ++ "</p>"

/-- Result of invoking the query handler: the new DOM state, the request
issued (`none` when a precondition aborted the flow), and the blocking
alert raised (`none` when no precondition failed). -/
structure QueryOutcome where
  state : PageState
  request : Option QueryRequest
  alertMsg : Option String
deriving DecidableEq, Repr

/-- `handleQuery` (script.js lines 62-104). Trims the question; an empty
result raises a blocking alert and aborts, as does a falsy `sessionId`.
Otherwise it shows the results card and loader, clears previous results,
posts the session id and trimmed question, and on settle renders the
response through `displayResults`, or writes an inline error into the
results area; the `finally` clause hides the loader on both paths. -/
def handleQuery (questionRaw : String) (resp : FetchResult QueryResponse)
    (s : PageState) : QueryOutcome :=
  let question := jsTrim questionRaw
  if question = "" then
    { state := s, request := none, alertMsg := some "Please enter a question." }
  else if ¬ jsTruthyOpt s.sessionId then
    { state := s, request := none,
      alertMsg := some "Please upload a document first." }
  else
    let sid := s.sessionId.getD ""
    let s := { s with resultsCardVisible := true,
                      loaderVisible := true,
                      resultsContentHTML := "" }
    let req : QueryRequest := { session_id := sid, question := question }
    let s :=
      match resp with
      | .success data => displayResults data s
      | .httpError detail =>
        { s with resultsContentHTML :=
                   errorHtml (jsOrStr detail "Query failed") }
      | .networkError msg =>
        { s with resultsContentHTML := errorHtml msg }
    { state := { s with loaderVisible := false },
      request := some req, alertMsg := none }

/-- Always-rendered part of the results HTML: the classified decision
banner and the justification block. -/
def baseSegment (data : QueryResponse) : String :=
  "\n            <div class=\"decision "
    ++ decisionClassName (classifyDecision data.decision) ++ "\">"
    ++ data.decision
    ++ "</div>\n            <h3>Justification</h3>\n            <p>"
    ++ data.justification ++ "</p>\n        "

/-- Conditions block: rendered exactly when the conditions text is
present (truthy), empty otherwise. -/
def conditionsSegment (conditions : Option String) : String :=
  if jsTruthyOpt conditions then
    "\n                <h3>Conditions</h3>\n                <p>"
      ++ conditions.getD "" ++ "</p>\n            "
  else ""

/-- Concatenation of the per-clause fragments in the order received. -/
def clausesHtmlOf : List Clause → String
  | [] => ""
  | clause :: rest => clauseHtml clause ++ clausesHtmlOf rest

/-- Referenced-clauses section: header plus the per-clause fragments in
order, exactly when the sequence is present and non-empty. -/
def clausesSegment : Option (List Clause) → String
  | some clauses =>
    if clauses.length > 0 then
      "<h3>Referenced Clauses</h3>" ++ clausesHtmlOf clauses
    else ""
  | none => ""

/-- The `forEach`-style left fold of clause fragments equals the prefix
followed by the in-order concatenation of the fragments. -/
theorem foldl_clauseHtml (l : List Clause) (acc : String) :
    l.foldl (fun h c => h ++ clauseHtml c) acc = acc ++ clausesHtmlOf l := by
  induction l generalizing acc with
  | nil => simp [clausesHtmlOf, String.append_empty]
  | cons c cs ih =>
    simp only [List.foldl_cons, clausesHtmlOf, ih, String.append_assoc]

/-- Claim C8: the rendered results HTML decomposes as the decision and
justification, then the conditions block exactly when the conditions text
is present, then the referenced-clauses section exactly when the sequence
is present and non-empty, its clauses rendered via `clauseHtml` (clause
number or the `N/A` placeholder, source document name, quoted text) in the
order received. -/
theorem displayResults_structure (data : QueryResponse) (s : PageState) :
    (displayResults data s).resultsContentHTML =
      baseSegment data ++ conditionsSegment data.conditions
        ++ clausesSegment data.referenced_clauses := by
  cases hrc : data.referenced_clauses with
  | none =>
    cases hc : jsTruthyOpt data.conditions with
    | false =>
      simp only [displayResults, hrc, hc, Bool.false_eq_true, if_false,
        baseSegment, conditionsSegment, clausesSegment, String.append_empty]
    | true =>
      simp only [displayResults, hrc, hc, if_true, baseSegment,
        conditionsSegment, clausesSegment, String.append_empty,
        String.append_assoc]
  | some clauses =>
    by_cases hlen : clauses.length > 0
    · cases hc : jsTruthyOpt data.conditions with
      | false =>
        simp only [displayResults, hrc, hc, Bool.false_eq_true, if_false,
          baseSegment, conditionsSegment, clausesSegment, if_pos hlen,
          foldl_clauseHtml, String.empty_append, String.append_assoc]
      | true =>
        simp only [displayResults, hrc, hc, if_true, baseSegment,
          conditionsSegment, clausesSegment, if_pos hlen, foldl_clauseHtml,
          String.append_assoc]
    · cases hc : jsTruthyOpt data.conditions with
      | false =>
        simp only [displayResults, hrc, hc, Bool.false_eq_true, if_false,
          baseSegment, conditionsSegment, clausesSegment, if_neg hlen,
          String.append_empty]
      | true =>
        simp only [displayResults, hrc, hc, if_true, baseSegment,
          conditionsSegment, clausesSegment, if_neg hlen,
          String.append_empty, String.append_assoc]

/-- Claim C3: invoking the upload handler with no file selected issues no
request, sets the status text to the select-a-file message, and leaves the
session identifier unchanged. -/
theorem handleUpload_no_file (now : Nat) (resp : FetchResult String)
    (s : PageState) :
    (handleUpload none now resp s).request = none ∧
      (handleUpload none now resp s).state.uploadStatusText =
        "Please select a file first." ∧
      (handleUpload none now resp s).state.sessionId = s.sessionId := by
  simp [handleUpload]

/-- Claim C6: on a successful upload response with body message `Ready`,
the status text becomes `Ready`, the query card becomes visible, and the
question input receives focus. -/
theorem handleUpload_success_ready (f : String) (now : Nat) (s : PageState) :
    (handleUpload (some f) now (FetchResult.success "Ready") s).state.uploadStatusText
        = "Ready" ∧
      (handleUpload (some f) now (FetchResult.success "Ready") s).state.queryCardVisible
        = true ∧
      (handleUpload (some f) now (FetchResult.success "Ready") s).state.questionFocused
        = true := by
  simp [handleUpload]

/-- Claim C7: on a non-ok upload response whose body detail is `bad file`,
the status text becomes `Error: bad file`; when the failure body carries no
detail field, the generic `Error: Upload failed` message is used. -/
theorem handleUpload_failure_detail (f : String) (now : Nat) (s : PageState) :
    (handleUpload (some f) now (FetchResult.httpError (some "bad file")) s).state.uploadStatusText
        = "Error: bad file" ∧
      (handleUpload (some f) now (FetchResult.httpError none) s).state.uploadStatusText
        = "Error: Upload failed" := by
  exact ⟨rfl, rfl⟩

/-- Concrete page state with no session, used in the witnesses below. -/
def sampleState : PageState :=
  { uploadStatusText := "", uploadStatusColor := "", queryCardVisible := false,
    resultsCardVisible := false, loaderVisible := false,
    resultsContentHTML := "", questionFocused := false, sessionId := none }

/-- Concrete page state after an upload established a session. -/
def sampleSession : PageState :=
  { sampleState with sessionId := some "session_1" }

/-- Claim C4: with an empty (trimmed) question, or with a question but no
session identifier, the query handler raises the corresponding blocking
alert and returns with the state untouched and no request issued. -/
theorem handleQuery_preconditions (raw : String)
    (resp : FetchResult QueryResponse) (s : PageState) :
    (jsTrim raw = "" →
      handleQuery raw resp s =
        { state := s, request := none,
          alertMsg := some "Please enter a question." }) ∧
    (jsTrim raw ≠ "" → jsTruthyOpt s.sessionId = false →
      handleQuery raw resp s =
        { state := s, request := none,
          alertMsg := some "Please upload a document first." }) := by
  constructor
  · intro h
    simp [handleQuery, h]
  · intro h1 h2
    simp [handleQuery, h1, h2]

/-- Witness for C4: both aborts at concrete inputs — a whitespace question,
and a real question against a state with no session. -/
theorem handleQuery_preconditions_witness :
    handleQuery " " (FetchResult.networkError "down") sampleState =
        { state := sampleState, request := none,
          alertMsg := some "Please enter a question." } ∧
      handleQuery "hi" (FetchResult.networkError "down") sampleState =
        { state := sampleState, request := none,
          alertMsg := some "Please upload a document first." } :=
  ⟨(handleQuery_preconditions " " (FetchResult.networkError "down")
      sampleState).1 (by decide),
   (handleQuery_preconditions "hi" (FetchResult.networkError "down")
      sampleState).2 (by decide) (by decide)⟩

/-- Claim C5: whenever the query handler issues a request, the loading
indicator is hidden in the final state on every outcome, and on either
failure outcome the results area holds the inline error paragraph built
from the error text. -/
theorem handleQuery_settles (raw : String) (resp : FetchResult QueryResponse)
    (s : PageState)
    (h : ((handleQuery raw resp s).request).isSome = true) :
    (handleQuery raw resp s).state.loaderVisible = false ∧
      (∀ d, resp = FetchResult.httpError d →
        (handleQuery raw resp s).state.resultsContentHTML =
          errorHtml (jsOrStr d "Query failed")) ∧
      (∀ m, resp = FetchResult.networkError m →
        (handleQuery raw resp s).state.resultsContentHTML = errorHtml m) := by
  by_cases h1 : jsTrim raw = ""
  · exact absurd h (by simp [handleQuery, h1])
  · by_cases h2 : jsTruthyOpt s.sessionId
    · refine ⟨?_, ?_, ?_⟩
      · cases resp <;> simp [handleQuery, h1, h2, displayResults]
      · intro d hd
        subst hd
        simp [handleQuery, h1, h2]
      · intro m hm
        subst hm
        simp [handleQuery, h1, h2]
    · exact absurd h (by simp [handleQuery, h1, h2])

/-- Witness for C5: a network failure on a concrete query hides the loader
and writes the inline error for the error text `boom`. -/
theorem handleQuery_settles_witness :
    (handleQuery "q" (FetchResult.networkError "boom")
        sampleSession).state.loaderVisible = false ∧
      (handleQuery "q" (FetchResult.networkError "boom")
        sampleSession).state.resultsContentHTML = errorHtml "boom" :=
  ⟨(handleQuery_settles "q" (FetchResult.networkError "boom") sampleSession
      (by decide)).1,
   (handleQuery_settles "q" (FetchResult.networkError "boom") sampleSession
      (by decide)).2.2 "boom" rfl⟩

/-- Claim C9: with a file selected, the upload handler issues its request
carrying the fresh time-based session identifier (so the identifier is
assigned before the request), keeps that identifier in the final state on
every outcome — failures included — and a subsequent query with a
non-empty question then passes the session-presence check and issues a
request. -/
theorem handleUpload_fresh_session (f : String) (now : Nat)
    (resp : FetchResult String) (s : PageState) :
    (handleUpload (some f) now resp s).request =
        some { file := f, session_id := "session_" ++ toString now } ∧
      (handleUpload (some f) now resp s).state.sessionId =
        some ("session_" ++ toString now) ∧
      ∀ q resp2, jsTrim q ≠ "" →
        ((handleQuery q resp2
            (handleUpload (some f) now resp s).state).request).isSome
          = true := by
  have hsid : ("session_" ++ toString now) ≠ "" := by
    intro hemp
    have hlen := congrArg String.length hemp
    rw [String.length_append] at hlen
    have h8 : ("session_" : String).length = 8 := rfl
    have h0 : ("" : String).length = 0 := rfl
    rw [h8, h0] at hlen
    omega
  have hses : (handleUpload (some f) now resp s).state.sessionId =
      some ("session_" ++ toString now) := by
    cases resp <;> simp [handleUpload]
  refine ⟨?_, hses, ?_⟩
  · cases resp <;> simp [handleUpload]
  · intro q resp2 hq
    cases resp2 <;> simp [handleQuery, hq, hses, jsTruthyOpt, hsid]

/-- Witness for C9: a failed upload of `doc.pdf` at time 0 still issues
the request with the fresh identifier, and a later concrete query issues
its own request. -/
theorem handleUpload_fresh_session_witness :
    (handleUpload (some "doc.pdf") 0 (FetchResult.httpError (some "bad file"))
        sampleState).request =
        some { file := "doc.pdf", session_id := "session_" ++ toString 0 } ∧
      ((handleQuery "Is it covered?" (FetchResult.networkError "down")
          (handleUpload (some "doc.pdf") 0
            (FetchResult.httpError (some "bad file"))
            sampleState).state).request).isSome = true := by
  have h := handleUpload_fresh_session "doc.pdf" 0
    (FetchResult.httpError (some "bad file")) sampleState
  exact ⟨h.1, h.2.2 "Is it covered?" (FetchResult.networkError "down")
    (by decide)⟩

/-- Claim C10: the query handler trims the question before checking it —
a question made only of white-space code points aborts with the blocking
alert, the state untouched and no request issued — and any request it does
issue carries the trimmed text, not the raw input value. -/
theorem handleQuery_trims (raw : String) (resp : FetchResult QueryResponse)
    (s : PageState) :
    ((∀ c ∈ raw.data, isJsWhitespace c = true) →
      handleQuery raw resp s =
        { state := s, request := none,
          alertMsg := some "Please enter a question." }) ∧
    (∀ req, (handleQuery raw resp s).request = some req →
      req.question = jsTrim raw) := by
  constructor
  · intro h
    have hd : raw.data.dropWhile isJsWhitespace = [] :=
      List.dropWhile_eq_nil_iff.mpr h
    have htrim : jsTrim raw = "" := by
      simp [jsTrim, hd]
    simp [handleQuery, htrim]
  · intro req hreq
    by_cases h1 : jsTrim raw = ""
    · exact absurd hreq (by simp [handleQuery, h1])
    · by_cases h2 : jsTruthyOpt s.sessionId
      · simp [handleQuery, h1, h2] at hreq
        rw [← hreq]
      · exact absurd hreq (by simp [handleQuery, h1, h2])

/-- Witness for C10: a two-space question aborts with the alert, and the
request issued for the padded question ` hi ` carries the trimmed text. -/
theorem handleQuery_trims_witness :
    handleQuery "  " (FetchResult.networkError "down") sampleState =
        { state := sampleState, request := none,
          alertMsg := some "Please enter a question." } ∧
      ({ session_id := "session_1", question := "hi" } : QueryRequest).question
        = jsTrim " hi " :=
  ⟨(handleQuery_trims "  " (FetchResult.networkError "down") sampleState).1
      (by decide),
   (handleQuery_trims " hi " (FetchResult.networkError "down")
      sampleSession).2 { session_id := "session_1", question := "hi" }
      (by decide)⟩
